import Mathlib

/-!
Shallow embedding of the two screenshot-capture scripts of the
ditterstudio repository (src/web/take_screenshots.py and
src/web/take_more_screenshots.py).

Each script is straight-line Playwright automation: launch a headless
browser, open a page, navigate, wait, apply UI actions interleaved with
fixed settle delays, take screenshots, emit progress lines, close the
browser, all inside one `with sync_playwright() as p` block.  We embed
each script body as a concrete list of events, in source order, and give
execution semantics that model a Python exception raised at an arbitrary
event: the remaining statements of the with-block body are skipped, while
the with-statement exit (playwright teardown) still runs.
-/

/-- One statement of a capture script, in source order.  `launch` is
p.chromium.launch, `newPage` carries the viewport, `sleep` is time.sleep
(in milliseconds), `waitForTimeout` is page.wait_for_timeout, `emit` is a
print call, `close` is browser.close, and `stop` is the with-statement
exit of sync_playwright (playwright teardown, which terminates launched
browser processes). -/
inductive Event where
  | launch : Event
  | newPage (width height : Nat) : Event
  | goto (url : String) : Event
  | waitForLoadState (state : String) : Event
  | sleep (ms : Nat) : Event
  | setInputFiles (selector path : String) : Event
  | waitForTimeout (ms : Nat) : Event
  | selectOption (selector value : String) : Event
  | click (selector : String) : Event
  | keyPress (key : String) : Event
  | evaluate (script : String) : Event
  | screenshot (path : String) : Event
  | emit (line : String) : Event
  | close : Event
  | stop : Event
  deriving DecidableEq

/-- OUTDIR constant shared by both scripts. -/
def OUTDIR : String := "/Users/marcokotrotsos/PERSONAL/ditter/web/screenshots"

/-- IMAGE fixture path shared by both scripts. -/
def IMAGE : String := "/Users/marcokotrotsos/Downloads/example.JPEG"

/-- VIDEO fixture path shared by both scripts. -/
def VIDEO : String := "/Users/marcokotrotsos/Downloads/bb.mp4"

/-- The single browser session of take_screenshots.py, from
p.chromium.launch up to and including browser.close, one event per
statement in source order. -/
def ts_session : List Event :=
  [Event.launch,
   Event.newPage 1400 900,
   Event.goto "http://localhost:8000",
   Event.waitForLoadState "networkidle",
   Event.sleep 1000,
   Event.screenshot (OUTDIR ++ "/01-landing.png"),
   Event.emit "1/9 landing",
   Event.setInputFiles "#file-input" IMAGE,
   Event.waitForTimeout 2000,
   Event.screenshot (OUTDIR ++ "/02-gradient-loaded.png"),
   Event.emit "2/9 image loaded",
   Event.screenshot (OUTDIR ++ "/03-control-panel.png"),
   Event.emit "3/9 control panel",
   Event.selectOption "#style-category" "halftone",
   Event.waitForTimeout 500,
   Event.selectOption "#style-algorithm" "dot-halftone",
   Event.waitForTimeout 1500,
   Event.screenshot (OUTDIR ++ "/04-halftone.png"),
   Event.emit "4/9 halftone",
   Event.selectOption "#style-category" "creative",
   Event.waitForTimeout 500,
   Event.selectOption "#style-algorithm" "reaction-diffusion",
   Event.waitForTimeout 2000,
   Event.screenshot (OUTDIR ++ "/05-creative.png"),
   Event.emit "5/9 creative",
   Event.selectOption "#style-category" "ordered",
   Event.waitForTimeout 500,
   Event.selectOption "#style-algorithm" "bayer-4x4",
   Event.waitForTimeout 500,
   Event.selectOption "#palette-category" "retro",
   Event.waitForTimeout 500,
   Event.selectOption "#palette-select" "gameboy",
   Event.waitForTimeout 1500,
   Event.screenshot (OUTDIR ++ "/06-retro-gameboy.png"),
   Event.emit "6/9 retro gameboy",
   Event.click "#btn-studio",
   Event.waitForTimeout 1500,
   Event.screenshot (OUTDIR ++ "/07-studio.png"),
   Event.emit "7/9 studio",
   Event.keyPress "Escape",
   Event.waitForTimeout 500,
   Event.click "#btn-export",
   Event.waitForTimeout 500,
   Event.screenshot (OUTDIR ++ "/08-export.png"),
   Event.emit "8/9 export",
   Event.keyPress "Escape",
   Event.waitForTimeout 300,
   Event.evaluate "document.documentElement.setAttribute(\x27data-theme\x27, \x27light\x27)",
   Event.waitForTimeout 500,
   Event.screenshot (OUTDIR ++ "/09-light-theme.png"),
   Event.emit "9/9 light theme",
   Event.close]

/-- The full with-block body of take_screenshots.py: the session followed
by the final completion print. -/
def ts_body : List Event :=
  ts_session ++ [Event.emit "All screenshots captured."]

/-- The first browser session of take_more_screenshots.py (image mode),
from launch up to and including the first browser.close. -/
def tms_session1 : List Event :=
  [Event.launch,
   Event.newPage 1400 900,
   Event.goto "http://localhost:8000",
   Event.waitForLoadState "networkidle",
   Event.sleep 1000,
   Event.setInputFiles "#file-input" IMAGE,
   Event.waitForTimeout 2000,
   Event.selectOption "#style-category" "pattern",
   Event.waitForTimeout 300,
   Event.selectOption "#style-algorithm" "crosshatch",
   Event.waitForTimeout 1500,
   Event.screenshot (OUTDIR ++ "/10-crosshatch.png"),
   Event.emit "10 crosshatch",
   Event.selectOption "#style-category" "noise",
   Event.waitForTimeout 300,
   Event.selectOption "#style-algorithm" "blue-noise",
   Event.waitForTimeout 300,
   Event.selectOption "#palette-category" "themed",
   Event.waitForTimeout 300,
   Event.selectOption "#palette-select" "cyberpunk",
   Event.waitForTimeout 1500,
   Event.screenshot (OUTDIR ++ "/11-blue-noise-cyberpunk.png"),
   Event.emit "11 blue noise cyberpunk",
   Event.selectOption "#style-category" "artistic",
   Event.waitForTimeout 300,
   Event.selectOption "#style-algorithm" "sketch",
   Event.waitForTimeout 300,
   Event.selectOption "#palette-category" "default",
   Event.waitForTimeout 300,
   Event.selectOption "#palette-select" "grayscale-8",
   Event.waitForTimeout 1500,
   Event.screenshot (OUTDIR ++ "/12-sketch.png"),
   Event.emit "12 sketch",
   Event.selectOption "#style-category" "error-diffusion",
   Event.waitForTimeout 300,
   Event.selectOption "#style-algorithm" "atkinson",
   Event.waitForTimeout 300,
   Event.selectOption "#palette-category" "themed",
   Event.waitForTimeout 300,
   Event.selectOption "#palette-select" "sepia",
   Event.waitForTimeout 1500,
   Event.screenshot (OUTDIR ++ "/13-atkinson-sepia.png"),
   Event.emit "13 atkinson sepia",
   Event.selectOption "#style-category" "creative",
   Event.waitForTimeout 300,
   Event.selectOption "#style-algorithm" "pixel-sort",
   Event.waitForTimeout 300,
   Event.selectOption "#palette-category" "default",
   Event.waitForTimeout 300,
   Event.selectOption "#palette-select" "grayscale-16",
   Event.waitForTimeout 1500,
   Event.screenshot (OUTDIR ++ "/14-pixel-sort.png"),
   Event.emit "14 pixel sort",
   Event.selectOption "#style-category" "threshold",
   Event.waitForTimeout 300,
   Event.selectOption "#style-algorithm" "otsu",
   Event.waitForTimeout 300,
   Event.selectOption "#palette-select" "bw",
   Event.waitForTimeout 1500,
   Event.screenshot (OUTDIR ++ "/15-otsu.png"),
   Event.emit "15 otsu",
   Event.close]

/-- The second browser session of take_more_screenshots.py (video mode),
from the second launch up to and including the second browser.close. -/
def tms_session2 : List Event :=
  [Event.launch,
   Event.newPage 1400 900,
   Event.goto "http://localhost:8000",
   Event.waitForLoadState "networkidle",
   Event.sleep 1000,
   Event.setInputFiles "#file-input" VIDEO,
   Event.waitForTimeout 3000,
   Event.screenshot (OUTDIR ++ "/16-video-mode.png"),
   Event.emit "16 video mode",
   Event.selectOption "#style-category" "halftone",
   Event.waitForTimeout 300,
   Event.selectOption "#style-algorithm" "dot-halftone",
   Event.waitForTimeout 1500,
   Event.screenshot (OUTDIR ++ "/17-video-halftone.png"),
   Event.emit "17 video halftone",
   Event.close]

/-- The full with-block body of take_more_screenshots.py: both sessions
followed by the final completion print. -/
def tms_body : List Event :=
  tms_session1 ++ tms_session2 ++ [Event.emit "Done."]

/-- The three browser sessions of the repository, in execution order. -/
def sessions : List (List Event) :=
  [ts_session, tms_session1, tms_session2]

/-- The screenshot output paths of a trace, in order. -/
def screenshotsOf : List Event → List String
  | [] => []
  | Event.screenshot p :: rest => p :: screenshotsOf rest
  | _ :: rest => screenshotsOf rest

/-- Whether an event survives under filesystem oracle fs: a file upload
raises when its path does not exist (Playwright set_input_files fails on
a missing file); every other statement succeeds. -/
def survives (fs : String → Bool) : Event → Bool
  | Event.setInputFiles _ p => fs p
  | _ => true

/-- Execute a statement list under filesystem oracle fs: statements run
in order until the first upload of a missing file raises, which skips
every following statement of the block. -/
def execFS (fs : String → Bool) : List Event → List Event
  | [] => []
  | e :: rest => if survives fs e then e :: execFS fs rest else []

/-- Execute a with-block body with an optional failure position: on
`some k` the event at index k raises and the rest of the body is
skipped; on `none` the body runs to the end.  In both cases the
with-statement exit (playwright teardown) runs afterwards. -/
def execAbort (body : List Event) : Option Nat → List Event
  | none => body ++ [Event.stop]
  | some k => body.take k ++ [Event.stop]

/-- Filesystem oracle on which every path except IMAGE exists. -/
def noImage : String → Bool := fun p => !(p == IMAGE)

/-- Filesystem oracle on which every path except VIDEO exists. -/
def noVideo : String → Bool := fun p => !(p == VIDEO)

/-- The fixture of a session: the path of its first file upload. -/
def sessionFixture : List Event → Option String
  | [] => none
  | Event.setInputFiles _ p :: _ => some p
  | _ :: rest => sessionFixture rest

/-- The settle delay immediately preceding each capture: the first
component is the duration of the wait or sleep event directly before the
screenshot in the trace, or 0 when the directly preceding event is not a
wait; the second component is the screenshot path. -/
def delayedCaptures (d : Nat) : List Event → List (Nat × String)
  | [] => []
  | Event.waitForTimeout ms :: rest => delayedCaptures ms rest
  | Event.sleep ms :: rest => delayedCaptures ms rest
  | Event.screenshot p :: rest => (d, p) :: delayedCaptures 0 rest
  | _ :: rest => delayedCaptures 0 rest

/-- Whether a pre-capture delay lies in the claimed render-settle range
of 1.5 to 2 seconds. -/
def settleOk (d : Nat) : Bool := 1500 ≤ d && d ≤ 2000

/-- The claim that every capture of a session is directly preceded by a
render-settle delay of 1.5 to 2 seconds. -/
def settleAlways (s : List Event) : Bool :=
  (delayedCaptures 0 s).all fun dc => settleOk dc.1

/-- Each capture of a trace paired with the event directly after it. -/
def capturesWithNext : List Event → List (String × Option Event)
  | [] => []
  | Event.screenshot p :: rest => (p, rest.head?) :: capturesWithNext rest
  | _ :: rest => capturesWithNext rest

/-- Whether string s begins with string lead. -/
def strHasLead (lead s : String) : Bool :=
  s.data.take lead.data.length == lead.data

/-- Whether string s ends with string suf. -/
def strEndsWith (suf s : String) : Bool :=
  s.data.drop (s.data.length - suf.data.length) == suf.data

/-- The claim that every capture of a session is directly followed by a
progress print of the form index-slash-total-space-label, where the
index is the 1-based position of the capture in the session and the
total is the number of captures of the session. -/
def progressSlashTotal (s : List Event) : Bool :=
  let caps := capturesWithNext s
  caps.enum.all fun ie =>
    match ie.2.2 with
    | some (Event.emit t) =>
        strHasLead (toString (ie.1 + 1) ++ "/" ++ toString caps.length ++ " ") t
    | _ => false

/-- Whether every capture of a session is directly followed by a print
of the form number-space-label where the number is base plus the 1-based
position of the capture in the session, with no total. -/
def progressGlobal (base : Nat) (s : List Event) : Bool :=
  let caps := capturesWithNext s
  caps.enum.all fun ie =>
    match ie.2.2 with
    | some (Event.emit t) => strHasLead (toString (base + ie.1 + 1) ++ " ") t
    | _ => false

/-- Whether an event mutates page UI state (file upload, dropdown
selection, click, key press, script evaluation). -/
def isAction : Event → Bool
  | Event.setInputFiles _ _ => true
  | Event.selectOption _ _ => true
  | Event.click _ => true
  | Event.keyPress _ => true
  | Event.evaluate _ => true
  | _ => false

/-- Whether an event is a screenshot capture. -/
def isShot : Event → Bool
  | Event.screenshot _ => true
  | _ => false

/-- Whether an event discards accumulated page state: a navigation or a
fresh browser or page. -/
def isResetEvent : Event → Bool
  | Event.goto _ => true
  | Event.launch => true
  | Event.newPage _ _ => true
  | _ => false

/-- For each capture of a trace, the list of page-mutating actions
applied before it, in order; acc accumulates the actions seen so far. -/
def stateAtCaptures (acc : List Event) : List Event → List (List Event)
  | [] => []
  | Event.screenshot _ :: rest => acc :: stateAtCaptures acc rest
  | e :: rest => stateAtCaptures (if isAction e then acc ++ [e] else acc) rest

/-- Whether list b extends list a, i.e. a is an initial segment of b. -/
def extendsPre (a b : List Event) : Bool := b.take a.length == a

/-- Whether each successive element of a list of action histories
extends the previous one (cumulative state, never reset). -/
def chainExtends : List (List Event) → Bool
  | [] => true
  | [_] => true
  | a :: b :: rest => extendsPre a b && chainExtends (b :: rest)

/-- The five-event session-open sequence shared by all three sessions:
launch, page at the 1400 by 900 viewport, navigation to the app URL,
wait for network idle, one-second grace sleep. -/
def openSeq : List Event :=
  [Event.launch,
   Event.newPage 1400 900,
   Event.goto "http://localhost:8000",
   Event.waitForLoadState "networkidle",
   Event.sleep 1000]

/-- The fixture-specific settle delay the spec assigns to an upload:
3 seconds for a video file, 2 seconds for an image. -/
def expectedSettle (p : String) : Nat :=
  if strEndsWith ".mp4" p then 3000 else 2000

/-- The claim that a session uploads its fixture immediately after the
five-event open sequence, followed by the fixture-specific settle delay,
with no capture before the upload.  Sessions with no fixture satisfy it
vacuously. -/
def uploadFirst (s : List Event) : Bool :=
  match sessionFixture s with
  | none => true
  | some p =>
      ((s.drop 5).take 2
          == [Event.setInputFiles "#file-input" p,
              Event.waitForTimeout (expectedSettle p)])
        && ((s.take 5).all fun e => !(isShot e))

/-- The numeric index of a capture path of the form dir/NN-label.png:
checks the directory, two leading digits, a dash, a nonempty label
and the .png extension, and returns the two-digit number. -/
def captureIdx (dir s : String) : Option Nat :=
  let pre := (dir ++ "/").data
  match s.data.drop pre.length with
  | c1 :: c2 :: c3 :: tail =>
      if (s.data.take pre.length == pre)
          && (48 ≤ c1.toNat && c1.toNat ≤ 57)
          && (48 ≤ c2.toNat && c2.toNat ≤ 57)
          && (c3.toNat == 45)
          && (5 ≤ tail.length)
          && strEndsWith ".png" s
      then some ((c1.toNat - 48) * 10 + (c2.toNat - 48))
      else none
  | _ => none

/-- All seventeen capture paths of the repository, in execution order:
the nine of take_screenshots.py then the eight of
take_more_screenshots.py. -/
def allCaptures : List String :=
  screenshotsOf ts_body ++ screenshotsOf tms_body

/-- Whether a list of numbers is strictly increasing. -/
def strictIncr : List Nat → Bool
  | [] => true
  | [_] => true
  | a :: b :: rest => if a < b then strictIncr (b :: rest) else false

/-- Whether the event directly after a capture is a print. -/
def nextIsEmit : Option Event → Bool
  | some (Event.emit _) => true
  | _ => false

/-- The formal statement of claim C1 over the embedded sessions: for
every session whose fixture is a file, on any filesystem where that
fixture path does not exist the session writes no capture at all. -/
def fixtureAbortClean : Prop :=
  ∀ s ∈ sessions, ∀ p, sessionFixture s = some p →
    ∀ fs : String → Bool, fs p = false → screenshotsOf (execFS fs s) = []

/-- The formal statement of claim C3 at one session and one failure
position: when the event at index k raises, the browser close of the
session still executes. -/
def closeSurvivesFailure (s : List Event) (k : Nat) : Prop :=
  Event.close ∈ execAbort s (some k)

/-- C1 counterexample: the take_screenshots.py session has the image
fixture, yet on a filesystem missing that image the executed trace still
writes a capture, because the landing screenshot precedes the upload. -/
theorem C1_counterexample : ¬ fixtureAbortClean := fun h =>
  absurd (h ts_session (by decide) IMAGE (by decide) noImage (by decide))
    (by decide)

/-- C1 amended: both take_more_screenshots.py sessions upload their
fixture before any capture, so a missing fixture aborts them with zero
captures written; the take_screenshots.py session instead captures the
landing screenshot before the upload, so exactly that one file is
written before the abort. -/
theorem C1_fixture_abort_amended :
    (∀ fs : String → Bool, fs IMAGE = false →
        screenshotsOf (execFS fs tms_session1) = []) ∧
    (∀ fs : String → Bool, fs VIDEO = false →
        screenshotsOf (execFS fs tms_session2) = []) ∧
    screenshotsOf (execFS noImage ts_session) = [OUTDIR ++ "/01-landing.png"] :=
  ⟨fun fs h => by simp [tms_session1, execFS, survives, h, screenshotsOf],
   fun fs h => by simp [tms_session2, execFS, survives, h, screenshotsOf],
   by decide⟩

/-- C1 witness: the amended theorem applied to the concrete filesystem
oracles missing exactly the image, respectively the video. -/
theorem C1_fixture_abort_witness :
    screenshotsOf (execFS noImage tms_session1) = [] ∧
    screenshotsOf (execFS noVideo tms_session2) = [] :=
  ⟨C1_fixture_abort_amended.1 noImage (by decide),
   C1_fixture_abort_amended.2.1 noVideo (by decide)⟩

/-- C2 counterexample: the take_screenshots.py session violates the
claim that every capture is directly preceded by a render-settle delay
of 1.5 to 2 seconds; its third capture has no preceding delay at all. -/
theorem C2_counterexample :
    ts_session ∈ sessions ∧ settleAlways ts_session = false := by decide

/-- C2 amended: the pre-capture settle delays are not unconditionally
1.5 to 2 seconds.  The exact table: in take_screenshots.py the delays
are 1000, 2000, 0, 1500, 2000, 1500, 1500, 500 and 500 milliseconds; in
the image session of take_more_screenshots.py every capture is preceded
by 1500 milliseconds; in the video session the delays are 3000 and 1500
milliseconds. -/
theorem C2_settle_amended :
    delayedCaptures 0 ts_session =
      [(1000, OUTDIR ++ "/01-landing.png"),
       (2000, OUTDIR ++ "/02-gradient-loaded.png"),
       (0, OUTDIR ++ "/03-control-panel.png"),
       (1500, OUTDIR ++ "/04-halftone.png"),
       (2000, OUTDIR ++ "/05-creative.png"),
       (1500, OUTDIR ++ "/06-retro-gameboy.png"),
       (1500, OUTDIR ++ "/07-studio.png"),
       (500, OUTDIR ++ "/08-export.png"),
       (500, OUTDIR ++ "/09-light-theme.png")] ∧
    delayedCaptures 0 tms_session1 =
      [(1500, OUTDIR ++ "/10-crosshatch.png"),
       (1500, OUTDIR ++ "/11-blue-noise-cyberpunk.png"),
       (1500, OUTDIR ++ "/12-sketch.png"),
       (1500, OUTDIR ++ "/13-atkinson-sepia.png"),
       (1500, OUTDIR ++ "/14-pixel-sort.png"),
       (1500, OUTDIR ++ "/15-otsu.png")] ∧
    delayedCaptures 0 tms_session2 =
      [(3000, OUTDIR ++ "/16-video-mode.png"),
       (1500, OUTDIR ++ "/17-video-halftone.png")] ∧
    settleAlways tms_session1 = true := by decide

/-- C3 counterexample: if the event at index 17 of the
take_screenshots.py session (the fourth screenshot) raises, the
browser close statement of that session is skipped: it is not in the
executed trace. -/
theorem C3_counterexample : ¬ closeSurvivesFailure ts_session 17 := by
  unfold closeSurvivesFailure
  decide

/-- C3 amended: on every exit path the with-statement exit of
sync_playwright (the stop event, playwright teardown of launched
browser processes) executes; but the per-session browser close
statement is skipped whenever a failure occurs at or before its
position: in the take_screenshots.py session the close sits at index
51, so a failure at any index up to 51 skips it, while on the
error-free path every close executes. -/
theorem C3_release_amended :
    (∀ fail, Event.stop ∈ execAbort ts_body fail) ∧
    (∀ fail, Event.stop ∈ execAbort tms_body fail) ∧
    (∀ k, k ≤ 51 → Event.close ∉ execAbort ts_session (some k)) ∧
    Event.close ∈ execAbort ts_session none ∧
    Event.close ∈ execAbort tms_body none :=
  ⟨fun fail => by cases fail <;> simp [execAbort],
   fun fail => by cases fail <;> simp [execAbort],
   by decide, by decide, by decide⟩

/-- C3 witness: the amended theorem applied at the concrete failure
position 17 of the take_screenshots.py body. -/
theorem C3_release_witness :
    Event.stop ∈ execAbort ts_body (some 17) ∧
    Event.close ∉ execAbort ts_session (some 17) :=
  ⟨C3_release_amended.1 (some 17), C3_release_amended.2.2.1 17 (by decide)⟩

/-- C4 counterexample: in the first take_more_screenshots.py session
the print after each capture does not have the index-slash-total form;
the first capture is followed by the line 10 crosshatch rather than a
line starting 1/6. -/
theorem C4_counterexample :
    tms_session1 ∈ sessions ∧ progressSlashTotal tms_session1 = false := by
  decide

/-- C4 amended: every capture is directly followed by exactly one
progress print and each body ends with a completion notice, but only
take_screenshots.py uses the index-slash-total form; the two
take_more_screenshots.py sessions print the global capture number
(9 plus the position, respectively 15 plus the position) followed by
the label, with no total. -/
theorem C4_progress_amended :
    progressSlashTotal ts_session = true ∧
    progressGlobal 9 tms_session1 = true ∧
    progressGlobal 15 tms_session2 = true ∧
    ((capturesWithNext ts_body).all fun c => nextIsEmit c.2) = true ∧
    ((capturesWithNext tms_body).all fun c => nextIsEmit c.2) = true ∧
    ts_body.getLast? = some (Event.emit "All screenshots captured.") ∧
    tms_body.getLast? = some (Event.emit "Done.") := by decide

/-- C5: captures are produced in strictly increasing index order
matching declaration order, each filename is exactly the declared
output path, and every path has the form of a two-digit number, a dash,
a label and the png extension inside the fixed output directory. -/
theorem C5_capture_order :
    screenshotsOf ts_body =
      [OUTDIR ++ "/01-landing.png",
       OUTDIR ++ "/02-gradient-loaded.png",
       OUTDIR ++ "/03-control-panel.png",
       OUTDIR ++ "/04-halftone.png",
       OUTDIR ++ "/05-creative.png",
       OUTDIR ++ "/06-retro-gameboy.png",
       OUTDIR ++ "/07-studio.png",
       OUTDIR ++ "/08-export.png",
       OUTDIR ++ "/09-light-theme.png"] ∧
    screenshotsOf tms_body =
      [OUTDIR ++ "/10-crosshatch.png",
       OUTDIR ++ "/11-blue-noise-cyberpunk.png",
       OUTDIR ++ "/12-sketch.png",
       OUTDIR ++ "/13-atkinson-sepia.png",
       OUTDIR ++ "/14-pixel-sort.png",
       OUTDIR ++ "/15-otsu.png",
       OUTDIR ++ "/16-video-mode.png",
       OUTDIR ++ "/17-video-halftone.png"] ∧
    strictIncr ((screenshotsOf ts_body).filterMap (captureIdx OUTDIR)) = true ∧
    strictIncr ((screenshotsOf tms_body).filterMap (captureIdx OUTDIR)) = true ∧
    ((screenshotsOf ts_body).all fun p => (captureIdx OUTDIR p).isSome) = true ∧
    ((screenshotsOf tms_body).all fun p => (captureIdx OUTDIR p).isSome) = true := by
  decide

/-- C6 counterexample: the take_screenshots.py session has a file
fixture (the image) but does not upload it immediately after the
five-event open sequence; the landing capture comes first. -/
theorem C6_counterexample :
    ts_session ∈ sessions ∧ sessionFixture ts_session = some IMAGE ∧
    uploadFirst ts_session = false := by decide

/-- C6 amended: both take_more_screenshots.py sessions upload their
fixture immediately after open with the fixture-specific settle delay
of 2 seconds for the image and 3 seconds for the video; in the
take_screenshots.py session the upload sits at index 7, directly after
the landing capture and its progress print, and is still followed by
the 2-second image settle delay. -/
theorem C6_upload_amended :
    uploadFirst tms_session1 = true ∧
    uploadFirst tms_session2 = true ∧
    (ts_session.drop 7).take 2 =
      [Event.setInputFiles "#file-input" IMAGE, Event.waitForTimeout 2000] ∧
    (ts_session.drop 5).take 2 =
      [Event.screenshot (OUTDIR ++ "/01-landing.png"),
       Event.emit "1/9 landing"] := by decide

/-- C7: every session starts with exactly the five-event open sequence
of launch, page at the 1400 by 900 viewport, navigation to the app URL,
wait for network idle and a one-second grace sleep, and that sequence
contains no upload, UI action or capture. -/
theorem C7_session_open :
    (sessions.all fun s => s.take 5 == openSeq) = true ∧
    (openSeq.all fun e => !(isAction e) && !(isShot e)) = true := by decide

/-- C8: within each session page state is cumulative and never reset
between scenarios: the action history at each successive capture
extends the history at the previous capture, no navigation or fresh
page occurs after the open sequence, and the history at the last
capture is the full list of the session actions. -/
theorem C8_cumulative_state :
    (sessions.all fun s => chainExtends (stateAtCaptures [] s)) = true ∧
    (sessions.all fun s => (s.drop 5).all fun e => !(isResetEvent e)) = true ∧
    (sessions.all fun s => (stateAtCaptures [] s).getLast?
        == some (s.filter isAction)) = true := by decide

/-- C9: the second take_more_screenshots.py session has the video file
as fixture; directly after the open sequence come the video upload, the
3-second settle delay and the capture named 16-video-mode.png, and the
only page-mutating action before that capture is the upload itself. -/
theorem C9_video_default_capture :
    tms_session2 ∈ sessions ∧
    sessionFixture tms_session2 = some VIDEO ∧
    strEndsWith ".mp4" VIDEO = true ∧
    tms_session2.take 8 =
      openSeq ++
        [Event.setInputFiles "#file-input" VIDEO,
         Event.waitForTimeout 3000,
         Event.screenshot (OUTDIR ++ "/16-video-mode.png")] ∧
    (tms_session2.take 8).filter isAction =
      [Event.setInputFiles "#file-input" VIDEO] := by decide

set_option maxRecDepth 8192 in
/-- C10: across both scripts the seventeen capture paths are pairwise
distinct, all lie in the fixed output directory, carry the consecutive
two-digit index numbers 1 through 17 with no gap or duplicate, and each
path is captured exactly once. -/
theorem C10_distinct_numbered :
    allCaptures.length = 17 ∧
    allCaptures.Nodup ∧
    allCaptures.map (captureIdx OUTDIR) =
      (List.range 17).map (fun i => some (i + 1)) ∧
    (allCaptures.all (strHasLead (OUTDIR ++ "/"))) = true ∧
    (allCaptures.all fun p =>
        ((ts_body ++ tms_body).count (Event.screenshot p)) == 1) = true := by
  decide
